import Mathlib

/-!
Verification of the gesture-recognition / camera-navigation subsystem and the
particle pipeline of the WebWorldWind-ESA build, as a shallow embedding.

JavaScript numbers are modelled as rationals; byte stores as naturals;
GL texture contents as lists of pixel values.  Mutation is modelled by
explicit state passing.
-/

/-- Pixel contents of a texture: one natural per byte slot. -/
abbrev TexData := List Nat

/-- State of a `DoubleBufferedFbo` (from DoubleBufferedFbo.js).  The two
WebGL framebuffer objects are identified by the indices 1 and 2; the textures
are an arbitrary type so that claims about texture identity can be stated.
The constructor argument-validation throws (missing context/texture, negative
size) are not modelled; no claim concerns them.  `fbo1Complete` /
`fbo2Complete` record whether `ensureFboComplete` has attached `texture1` to
`fbo1` resp. `texture2` to `fbo2`. -/
structure DoubleBufferedFbo (Texture : Type) where
  width : ℚ
  height : ℚ
  texture1 : Texture
  texture2 : Texture
  fbo1Complete : Bool
  fbo2Complete : Bool
  primary : Nat
  isCleared : Bool
  deriving Repr, DecidableEq

/-- Constructor body of `DoubleBufferedFbo` (fields `primary = 1`,
`fbo1Complete = fbo2Complete = false`, `isCleared = true`). -/
def DoubleBufferedFbo.make {Texture : Type} (t1 t2 : Texture) (w h : ℚ) :
    DoubleBufferedFbo Texture :=
  { width := w, height := h, texture1 := t1, texture2 := t2,
    fbo1Complete := false, fbo2Complete := false, primary := 1, isCleared := true }

/-- DoubleBufferedFbo.prototype.swap. -/
def DoubleBufferedFbo.swap {Texture : Type} (f : DoubleBufferedFbo Texture) :
    DoubleBufferedFbo Texture :=
  if f.primary = 1 then { f with primary := 2 } else { f with primary := 1 }

/-- DoubleBufferedFbo.prototype.getPrimaryFbo (framebuffers identified by 1 / 2). -/
def DoubleBufferedFbo.getPrimaryFbo {Texture : Type} (f : DoubleBufferedFbo Texture) : Nat :=
  if f.primary = 1 then 1 else 2

/-- DoubleBufferedFbo.prototype.getSecondaryFbo. -/
def DoubleBufferedFbo.getSecondaryFbo {Texture : Type} (f : DoubleBufferedFbo Texture) : Nat :=
  if f.primary = 1 then 2 else 1

/-- DoubleBufferedFbo.prototype.getPrimaryTexture. -/
def DoubleBufferedFbo.getPrimaryTexture {Texture : Type} (f : DoubleBufferedFbo Texture) :
    Texture :=
  if f.primary = 1 then f.texture1 else f.texture2

/-- DoubleBufferedFbo.prototype.getSecondaryTexture. -/
def DoubleBufferedFbo.getSecondaryTexture {Texture : Type} (f : DoubleBufferedFbo Texture) :
    Texture :=
  if f.primary = 1 then f.texture2 else f.texture1

/-- Iterated `swap` (a finite sequence of swap() calls). -/
def DoubleBufferedFbo.swapN {Texture : Type} (f : DoubleBufferedFbo Texture) :
    Nat → DoubleBufferedFbo Texture
  | 0 => f
  | n + 1 => (DoubleBufferedFbo.swapN f n).swap

/-- DoubleBufferedFbo.prototype.ensureFboComplete: attaches `texture1` to
`fbo1` when the primary side is 1 and not yet complete, symmetrically for 2.
The `framebufferTexture2D` GL call is modelled by the completeness flag, which
the clear model below reads as the attachment relation. -/
def DoubleBufferedFbo.ensureFboComplete {Texture : Type} (f : DoubleBufferedFbo Texture) :
    DoubleBufferedFbo Texture :=
  if f.primary = 1 ∧ ¬ f.fbo1Complete then { f with fbo1Complete := true }
  else if f.primary = 2 ∧ ¬ f.fbo2Complete then { f with fbo2Complete := true }
  else f

/-- WebGL context state relevant to `clearFbo`: contents of the two textures,
the currently bound framebuffer (1 or 2 for the pair, none for the default
framebuffer), and a trace of which framebuffer each gl.clear call targeted
(0 for the default framebuffer). -/
structure GLState where
  tex1 : TexData
  tex2 : TexData
  boundFbo : Option Nat
  clearTrace : List Nat
  deriving Repr, DecidableEq

/-- Effect of gl.clear (all buffer bits, default zero clear colour): the
texture attached to the bound framebuffer becomes all-zero; the clear is
recorded in the trace. -/
def glClear {Texture : Type} (f : DoubleBufferedFbo Texture) (gl : GLState) : GLState :=
  match gl.boundFbo with
  | some 1 =>
      { gl with
        tex1 := if f.fbo1Complete then List.replicate gl.tex1.length 0 else gl.tex1,
        clearTrace := gl.clearTrace ++ [1] }
  | some 2 =>
      { gl with
        tex2 := if f.fbo2Complete then List.replicate gl.tex2.length 0 else gl.tex2,
        clearTrace := gl.clearTrace ++ [2] }
  | _ => { gl with clearTrace := gl.clearTrace ++ [0] }

/-- DoubleBufferedFbo.prototype.bindFbo: binds the primary framebuffer, then
ensures the texture attachment. -/
def DoubleBufferedFbo.bindFbo {Texture : Type} (f : DoubleBufferedFbo Texture) (gl : GLState) :
    DoubleBufferedFbo Texture × GLState :=
  (f.ensureFboComplete, { gl with boundFbo := some f.getPrimaryFbo })

/-- DoubleBufferedFbo.prototype.clearFbo: early-out on `isCleared`, otherwise
bind + clear, swap, bind + clear, swap, set `isCleared`.  The gl.viewport call
has no effect on the modelled state. -/
def DoubleBufferedFbo.clearFbo {Texture : Type} (f : DoubleBufferedFbo Texture) (gl : GLState) :
    DoubleBufferedFbo Texture × GLState :=
  if f.isCleared then (f, gl)
  else
    let p1 := f.bindFbo gl
    let gl1 := glClear p1.1 p1.2
    let f2 := p1.1.swap
    let p2 := f2.bindFbo gl1
    let gl2 := glClear p2.1 p2.2
    let f3 := p2.1.swap
    ({ f3 with isCleared := true }, gl2)

/-- States of the gesture recognizer finite state machine
(WorldWind.POSSIBLE, BEGAN, CHANGED, ENDED, CANCELLED, FAILED, RECOGNIZED). -/
inductive GestureState where
  | possible
  | began
  | changed
  | ended
  | cancelled
  | failed
  | recognized
  deriving Repr, DecidableEq

/-- State of a DragRecognizer (DragRecognizer.js).  `translationX/Y` and
`mouseButtonMask` are bookkeeping fields maintained by the GestureRecognizer
base class, which is not part of this repository snapshot; per the spec the
base class only maintains bookkeeping and the subclass handlers are the sole
mutators of `state`.  `timeout` is true when the failAfterDelay timer is
pending (the `this.timeout` handle being non-null). -/
structure DragRecognizer where
  state : GestureState
  button : Nat
  interpretDistance : ℚ
  numberOfClicks : Nat
  clickCounter : Nat
  maxClickInterval : ℚ
  translationX : ℚ
  translationY : ℚ
  mouseButtonMask : Nat
  timeout : Bool
  deriving Repr, DecidableEq

/-- DragRecognizer.prototype.failAfterDelay: clears any existing timer and
schedules a fresh one; modelled as the timer becoming pending (the delay
duration does not affect the untimed state machine). -/
def DragRecognizer.failAfterDelay (r : DragRecognizer) : DragRecognizer :=
  { r with timeout := true }

/-- DragRecognizer.prototype.cancelFailAfterDelay. -/
def DragRecognizer.cancelFailAfterDelay (r : DragRecognizer) : DragRecognizer :=
  { r with timeout := false }

/-- Firing of the failAfterDelay timer callback: only possible while pending;
nulls the handle, then fails the recognizer unless it already reached a state
other than Possible or Began. -/
def DragRecognizer.timerFire (r : DragRecognizer) : DragRecognizer :=
  if r.timeout then
    let r1 := { r with timeout := false }
    if r1.state = GestureState.possible ∨ r1.state = GestureState.began then
      { r1 with state := GestureState.failed }
    else r1
  else r

/-- DragRecognizer.prototype.reset: the base-class reset is modelled from the
spec (a reset returns the recognizer to Possible); then the subclass zeroes
the click counter and cancels the delayed-failure timer, as in the source. -/
def DragRecognizer.reset (r : DragRecognizer) : DragRecognizer :=
  DragRecognizer.cancelFailAfterDelay
    { r with state := GestureState.possible, clickCounter := 0 }

/-- DragRecognizer.prototype.mouseDown, with the button of the event. -/
def DragRecognizer.mouseDown (r : DragRecognizer) (eventButton : Nat) : DragRecognizer :=
  if r.state ≠ GestureState.possible then r
  else if r.button ≠ eventButton then { r with state := GestureState.failed }
  else
    let r1 := { r with clickCounter := r.clickCounter + 1 }
    let r2 := if r1.numberOfClicks > 1 then r1.failAfterDelay else r1
    if r2.clickCounter > r2.numberOfClicks then { r2 with state := GestureState.failed }
    else r2

/-- DragRecognizer.prototype.shouldInterpret.  The source compares
Math.sqrt(dx*dx + dy*dy) against interpretDistance; for the nonnegative
interpret distances the recognizers use (default 3) this is equivalent to the
comparison of squares used here. -/
def DragRecognizer.shouldInterpret (r : DragRecognizer) : Bool :=
  decide (r.translationX * r.translationX + r.translationY * r.translationY
      > r.interpretDistance * r.interpretDistance)
    && decide (r.numberOfClicks = r.clickCounter)

/-- DragRecognizer.prototype.shouldRecognize: the bit for the configured
button (1 shifted left by `button`, i.e. 2 ^ button) equals the mask of
currently pressed buttons. -/
def DragRecognizer.shouldRecognize (r : DragRecognizer) : Bool :=
  decide (2 ^ r.button = r.mouseButtonMask)

/-- DragRecognizer.prototype.mouseMove. -/
def DragRecognizer.mouseMove (r : DragRecognizer) : DragRecognizer :=
  if r.state = GestureState.possible then
    if r.shouldInterpret then
      if r.shouldRecognize then
        { r with translationX := 0, translationY := 0, state := GestureState.began }
      else r
    else r
  else if r.state = GestureState.began ∨ r.state = GestureState.changed then
    { r with state := GestureState.changed }
  else r

/-- DragRecognizer.prototype.mouseUp: its body contains only an empty
conditional, so it never changes the recognizer. -/
def DragRecognizer.mouseUp (r : DragRecognizer) : DragRecognizer :=
  r

/-- DragRecognizer.prototype.touchStart: mouse gestures fail upon receiving a
touch event. -/
def DragRecognizer.touchStart (r : DragRecognizer) : DragRecognizer :=
  if r.state = GestureState.possible then { r with state := GestureState.failed } else r

/-- Input events deliverable to a recognizer, plus the firing of the pending
delayed-failure timer.  A reset is not an input event; it is performed by the
framework when the last touch or button is released. -/
inductive RecEvent where
  | mouseDown (button : Nat)
  | mouseMove
  | mouseUp
  | touchStart
  | touchMove
  | touchEnd
  | touchCancel
  | timerFire
  deriving Repr, DecidableEq

/-- Event dispatch for a DragRecognizer.  touchMove, touchEnd and touchCancel
are not overridden by DragRecognizer; the base-class defaults are modelled
from the spec as leaving the recognizer state unchanged (the base class only
maintains pointer bookkeeping). -/
def DragRecognizer.step (r : DragRecognizer) : RecEvent → DragRecognizer
  | RecEvent.mouseDown b => r.mouseDown b
  | RecEvent.mouseMove => r.mouseMove
  | RecEvent.mouseUp => r.mouseUp
  | RecEvent.touchStart => r.touchStart
  | RecEvent.touchMove => r
  | RecEvent.touchEnd => r
  | RecEvent.touchCancel => r
  | RecEvent.timerFire => r.timerFire

/-- Folding a sequence of events through a DragRecognizer. -/
def DragRecognizer.steps (r : DragRecognizer) (evs : List RecEvent) : DragRecognizer :=
  evs.foldl DragRecognizer.step r

/-- State of a PanRecognizer (PanRecognizer.js).  `translationX/Y` and
`touchCount` are base-class bookkeeping, as for DragRecognizer. -/
structure PanRecognizer where
  state : GestureState
  minNumberOfTouches : Nat
  maxNumberOfTouches : Nat
  interpretDistance : ℚ
  numberOfTaps : Nat
  tapCounter : Nat
  maxTapInterval : ℚ
  translationX : ℚ
  translationY : ℚ
  touchCount : Nat
  timeout : Bool
  deriving Repr, DecidableEq

/-- PanRecognizer.prototype.failAfterDelay (same shape as the drag version). -/
def PanRecognizer.failAfterDelay (p : PanRecognizer) : PanRecognizer :=
  { p with timeout := true }

/-- PanRecognizer.prototype.cancelFailAfterDelay. -/
def PanRecognizer.cancelFailAfterDelay (p : PanRecognizer) : PanRecognizer :=
  { p with timeout := false }

/-- Firing of the pan failAfterDelay timer callback. -/
def PanRecognizer.timerFire (p : PanRecognizer) : PanRecognizer :=
  if p.timeout then
    let p1 := { p with timeout := false }
    if p1.state = GestureState.possible ∨ p1.state = GestureState.began then
      { p1 with state := GestureState.failed }
    else p1
  else p

/-- PanRecognizer.prototype.reset: base-class reset modelled from the spec as
returning to Possible; then the tap counter is zeroed and the timer
cancelled, as in the source. -/
def PanRecognizer.reset (p : PanRecognizer) : PanRecognizer :=
  PanRecognizer.cancelFailAfterDelay
    { p with state := GestureState.possible, tapCounter := 0 }

/-- PanRecognizer.prototype.mouseDown: touch gestures fail upon receiving a
mouse event. -/
def PanRecognizer.mouseDown (p : PanRecognizer) : PanRecognizer :=
  if p.state = GestureState.possible then { p with state := GestureState.failed } else p

/-- PanRecognizer.prototype.shouldRecognize. -/
def PanRecognizer.shouldRecognize (p : PanRecognizer) : Bool :=
  decide (p.touchCount ≠ 0)
    && decide (p.touchCount ≥ p.minNumberOfTouches)
    && decide (p.touchCount ≤ p.maxNumberOfTouches)

/-- PanRecognizer.prototype.touchStart. -/
def PanRecognizer.touchStart (p : PanRecognizer) : PanRecognizer :=
  if p.state ≠ GestureState.possible then p
  else if p.shouldRecognize then
    let p1 := { p with tapCounter := p.tapCounter + 1 }
    let p2 := if p1.numberOfTaps > 1 then p1.failAfterDelay else p1
    if p2.tapCounter > p2.numberOfTaps then { p2 with state := GestureState.failed }
    else p2
  else p

/-- PanRecognizer.prototype.shouldInterpret, with the square-comparison
rendering of the Math.sqrt test as for DragRecognizer (default interpret
distance 20). -/
def PanRecognizer.shouldInterpret (p : PanRecognizer) : Bool :=
  decide (p.translationX * p.translationX + p.translationY * p.translationY
      > p.interpretDistance * p.interpretDistance)
    && decide (p.numberOfTaps = p.tapCounter)

/-- PanRecognizer.prototype.touchMove. -/
def PanRecognizer.touchMove (p : PanRecognizer) : PanRecognizer :=
  if p.state = GestureState.possible then
    if p.shouldInterpret then
      if p.shouldRecognize then { p with state := GestureState.began }
      else p
    else p
  else if p.state = GestureState.began ∨ p.state = GestureState.changed then
    { p with state := GestureState.changed }
  else p

/-- PanRecognizer.prototype.touchEnd: its body is entirely commented out in
the source, so it never changes the recognizer. -/
def PanRecognizer.touchEnd (p : PanRecognizer) : PanRecognizer :=
  p

/-- PanRecognizer.prototype.touchCancel. -/
def PanRecognizer.touchCancel (p : PanRecognizer) : PanRecognizer :=
  if p.touchCount = 0 then
    if p.state = GestureState.possible then { p with state := GestureState.failed }
    else if p.state = GestureState.began ∨ p.state = GestureState.changed then
      { p with state := GestureState.cancelled }
    else p
  else p

/-- Navigation-controller state touched by handleSecondaryDrag and
handleRotation (BasicWorldWindowController.js).  `heading` and `tilt` are the
navigator camera parameters; the begin* fields are the begin-of-gesture
snapshots; `lastRotation`, `northUpMode`, `detectNorthUp` and the
`keepNorthUp` configuration flag are instance fields of the controller. -/
structure NavState where
  heading : ℚ
  tilt : ℚ
  beginHeading : ℚ
  beginTilt : ℚ
  lastRotation : ℚ
  northUpMode : Bool
  detectNorthUp : Bool
  keepNorthUp : Bool
  deriving Repr, DecidableEq

/-- BasicWorldWindowController.prototype.handleSecondaryDrag, for a gesture
in state Began or Changed, with the recognizer translation (tx, ty), the
canvas client dimensions, and the camera-mode flag.  The applyLimits and
redraw calls do not affect the modelled state (applyLimits is an empty
method in the source). -/
def handleSecondaryDrag (s : NavState) (state : GestureState) (tx ty : ℚ)
    (clientWidth clientHeight : ℚ) (isArcBall : Bool) : NavState :=
  if state = GestureState.began then
    { s with beginHeading := s.heading, beginTilt := s.tilt, detectNorthUp := false }
  else if state = GestureState.changed then
    let headingDegrees := 180 * tx / clientWidth
    let tiltDegrees := 90 * ty / clientHeight
    let s1 := { s with tilt := s.beginTilt + tiltDegrees }
    if isArcBall then
      if |s1.heading| < 10 ∧ s1.detectNorthUp then
        { s1 with northUpMode := s1.keepNorthUp, heading := 0 }
      else
        let s2 := { s1 with northUpMode := false,
                            heading := s1.beginHeading + headingDegrees }
        if |s2.heading| > 10 then { s2 with detectNorthUp := true } else s2
    else
      { s1 with heading := s1.beginHeading + headingDegrees }
  else s

/-- BasicWorldWindowController.prototype.handleRotation, for a gesture in
state Began or Changed, with the recognizer rotation value. -/
def handleRotation (s : NavState) (state : GestureState) (rotation : ℚ) : NavState :=
  if state = GestureState.began then
    { s with lastRotation := 0, detectNorthUp := false }
  else if state = GestureState.changed then
    let s1 :=
      if |s.heading| < 10 ∧ s.detectNorthUp then
        { s with northUpMode := s.keepNorthUp, heading := 0 }
      else
        let s2 := { s with northUpMode := false,
                           heading := s.heading - (rotation - s.lastRotation) }
        if |s2.heading| > 10 then { s2 with detectNorthUp := true } else s2
    { s1 with lastRotation := rotation }
  else s

/-- Browser animation-frame scheduler: requestAnimationFrame hands out fresh
nonnegative ids and appends the callback to the pending queue;
cancelAnimationFrame removes a pending entry by id. -/
structure FrameScheduler where
  nextId : Nat
  pending : List ℤ
  deriving Repr, DecidableEq

/-- Effect of requestAnimationFrame: returns the fresh id and the updated
scheduler. -/
def requestAnimationFrame (s : FrameScheduler) : FrameScheduler × ℤ :=
  ({ nextId := s.nextId + 1, pending := s.pending ++ [(s.nextId : ℤ)] }, (s.nextId : ℤ))

/-- Effect of cancelAnimationFrame on a given id. -/
def cancelAnimationFrame (s : FrameScheduler) (id : ℤ) : FrameScheduler :=
  { s with pending := s.pending.filter (fun x => x ≠ id) }

/-- Fling-relevant state of the BasicWorldWindowController: the
flingAnimationId instance field, -1 when no animation handle is stored. -/
structure FlingController where
  flingAnimationId : ℤ
  deriving Repr, DecidableEq

/-- BasicWorldWindowController.prototype.cancelFlingAnimation. -/
def cancelFlingAnimation (c : FlingController) (s : FrameScheduler) :
    FlingController × FrameScheduler :=
  if c.flingAnimationId ≠ -1 then
    ({ flingAnimationId := -1 }, cancelAnimationFrame s c.flingAnimationId)
  else (c, s)

/-- Scheduling step at the end of handleFling3D (also handleFling2D and
handleDoubleClickFling): this.flingAnimationId = requestAnimationFrame(animate).
No call to cancelFlingAnimation occurs in these handlers (the calls present in
earlier revisions are commented out in the source). -/
def startFlingAnimation (c : FlingController) (s : FrameScheduler) :
    FlingController × FrameScheduler :=
  let p := requestAnimationFrame s
  ({ flingAnimationId := p.2 }, p.1)

/-- Fling-relevant effect of the pointerdown branch of
BasicWorldWindowController.prototype.onGestureEvent: it calls
cancelFlingAnimation (the double-click / long-click bookkeeping it also
performs does not touch the fling state). -/
def pointerDownFling (c : FlingController) (s : FrameScheduler) :
    FlingController × FrameScheduler :=
  cancelFlingAnimation c s

/-- GLSL fract: q minus its floor (GLSL fract(q) = q - floor(q)). -/
def fract (q : ℚ) : ℚ :=
  q - (⌊q⌋ : ℚ)

/-- Channel quantization performed by decodePositionFromRGBA on each RGBA
channel: floor(c * 255.0 + 0.5) / 255.0, the rounding of an 8-bit stored
channel back to its quantized value. -/
def roundChannel (c : ℚ) : ℚ :=
  (⌊c * 255 + 1 / 2⌋ : ℚ) / 255

/-- encodePositionToRGBA from the GridParticleSimProgram fragment shader with
bitEnc = (1, 255): rg = fract(bitEnc * pos.x) followed by
rg -= rg.yy * vec2(1/255, 0), and the same for ba on pos.y. -/
def encodePositionToRGBA (pos : ℚ × ℚ) : ℚ × ℚ × ℚ × ℚ :=
  (fract (1 * pos.1) - fract (255 * pos.1) * (1 / 255),
   fract (255 * pos.1) - fract (255 * pos.1) * 0,
   fract (1 * pos.2) - fract (255 * pos.2) * (1 / 255),
   fract (255 * pos.2) - fract (255 * pos.2) * 0)

/-- decodePositionFromRGBA from the GridParticleSimProgram and
GridParticleProgram fragment shaders: each channel is first quantized to
8 bits (roundChannel), then x = dot(rounded.rg, bitDec) and
y = dot(rounded.ba, bitDec) with bitDec = (1, 1/255). -/
def decodePositionFromRGBA (color : ℚ × ℚ × ℚ × ℚ) : ℚ × ℚ :=
  (roundChannel color.1 * 1 + roundChannel color.2.1 * (1 / 255),
   roundChannel color.2.2.1 * 1 + roundChannel color.2.2.2 * (1 / 255))

/-- Math.ceil(Math.sqrt(n)) for a natural n, modelled exactly (IEEE sqrt is
correctly rounded, so for every realistic particle count the ceiling of the
floating-point square root equals the integer ceiling modelled here). -/
def ceilSqrt (n : Nat) : Nat :=
  if Nat.sqrt n * Nat.sqrt n = n then Nat.sqrt n else Nat.sqrt n + 1

/-- Fields of GriddedDataLayer touched by the numParticles setter and by the
resolution recomputation in createSimFbo (RenderableLayer.js).  The
regenerated GPU cache keys are not modelled; the setter regenerating them is
orthogonal to the claim. -/
structure GriddedDataLayerState where
  numParticles : Nat
  simTextureResolution : Nat
  requiresFboClear : Bool
  deriving Repr, DecidableEq

/-- The numParticles property setter: resolution = ceil(sqrt(n)),
numParticles = resolution squared, and the FBO clear is requested. -/
def setNumParticles (s : GriddedDataLayerState) (n : Nat) : GriddedDataLayerState :=
  let res := ceilSqrt n
  { s with
    simTextureResolution := res
    numParticles := res * res
    requiresFboClear := true }

/-- First two statements of GriddedDataLayer.prototype.createSimFbo: the same
resolution/particle-count recomputation from the stored particle count. -/
def createSimFboResize (s : GriddedDataLayerState) : GriddedDataLayerState :=
  let res := ceilSqrt s.numParticles
  { s with simTextureResolution := res, numParticles := res * res }

/-- One component of the grib2json output consumed by createGridData: a
header carrying the grid resolution nx and ny, and a flat row-major data
array of scalar samples. -/
structure GridComponent where
  nx : ℚ
  ny : ℚ
  data : List ℚ
  deriving Repr, DecidableEq

/-- Result record of GriddedDataLayer.prototype.createGridData. -/
structure GridData where
  width : Nat
  height : Nat
  uMin : ℚ
  uMax : ℚ
  vMin : ℚ
  vMax : ℚ
  data : List Nat
  deriving Repr, DecidableEq

/-- One update of a running minimum in the createGridData min/max loop:
if (min > l.data at i) min = l.data at i. -/
def minMaxStepMin (l : List ℚ) (m : ℚ) (i : Nat) : ℚ :=
  if m > l.getD i 0 then l.getD i 0 else m

/-- One update of a running maximum in the createGridData min/max loop. -/
def minMaxStepMax (l : List ℚ) (m : ℚ) (i : Nat) : ℚ :=
  if m < l.getD i 0 then l.getD i 0 else m

/-- The min/max loop of createGridData: all four accumulators start from the
element at index 0 of the respective component and the loop runs over indices
1 .. u.data.length - 1 of BOTH components (the source uses u.data.length as
the bound for the v component as well). -/
def gridMinMax (u v : List ℚ) : ℚ × ℚ × ℚ × ℚ :=
  (List.range' 1 (u.length - 1)).foldl
    (fun m i =>
      (minMaxStepMin u m.1 i, minMaxStepMax u m.2.1 i,
       minMaxStepMin v m.2.2.1 i, minMaxStepMax v m.2.2.2 i))
    (u.getD 0 0, u.getD 0 0, v.getD 0 0, v.getD 0 0)

/-- Sequential array fill: the concatenation of f 0, f 1, ..., f (n-1),
modelling a loop writing consecutive slots of the output Uint8Array. -/
def buildRows (f : Nat → List Nat) : Nat → List Nat
  | 0 => []
  | n + 1 => buildRows f n ++ f n

/-- The four bytes written by createGridData for the cell at (x, y): the
source index k applies the half-width horizontal rotation, and each of R and
G is the floored normalization of the source sample against the component
min/max (the Uint8Array store is the Int.toNat of the floor; the values are
in 0..255).  In the all-constant case the source computes NaN (0/0) and the
Uint8Array stores 0, which the rational convention 0 / 0 = 0 reproduces. -/
def gridCell (u v : List ℚ) (uMin uMax vMin vMax : ℚ) (width haflWidth y x : Nat) :
    List Nat :=
  let k := y * width + (x + haflWidth) % width
  [(⌊255 * (u.getD k 0 - uMin) / (uMax - uMin)⌋).toNat,
   (⌊255 * (v.getD k 0 - vMin) / (vMax - vMin)⌋).toNat,
   0, 255]

/-- GriddedDataLayer.prototype.createGridData for a two-element gribData
array of u and v components. -/
def createGridData (gribData : GridComponent × GridComponent) : GridData :=
  let u := gribData.1
  let v := gribData.2
  let width := (⌊u.nx⌋).toNat
  let height := (⌊u.ny⌋).toNat
  let mm := gridMinMax u.data v.data
  let haflWidth := width / 2
  let arr := buildRows
    (fun y => buildRows
      (fun x => gridCell u.data v.data mm.1 mm.2.1 mm.2.2.1 mm.2.2.2 width haflWidth y x)
      width)
    height
  { width := width, height := height, uMin := mm.1, uMax := mm.2.1,
    vMin := mm.2.2.1, vMax := mm.2.2.2, data := arr }

theorem DoubleBufferedFbo.swap_texture1 {Texture : Type} (f : DoubleBufferedFbo Texture) :
    f.swap.texture1 = f.texture1 := by
  unfold DoubleBufferedFbo.swap
  split <;> rfl

theorem DoubleBufferedFbo.swap_texture2 {Texture : Type} (f : DoubleBufferedFbo Texture) :
    f.swap.texture2 = f.texture2 := by
  unfold DoubleBufferedFbo.swap
  split <;> rfl

theorem DoubleBufferedFbo.swapN_textures {Texture : Type} (t1 t2 : Texture) (w h : ℚ)
    (n : Nat) :
    ((DoubleBufferedFbo.make t1 t2 w h).swapN n).texture1 = t1
    ∧ ((DoubleBufferedFbo.make t1 t2 w h).swapN n).texture2 = t2 := by
  induction n with
  | zero => exact ⟨rfl, rfl⟩
  | succ n ih =>
      simp only [DoubleBufferedFbo.swapN, DoubleBufferedFbo.swap_texture1,
        DoubleBufferedFbo.swap_texture2]
      exact ih

theorem DoubleBufferedFbo.swapN_primary {Texture : Type} (t1 t2 : Texture) (w h : ℚ)
    (n : Nat) :
    ((DoubleBufferedFbo.make t1 t2 w h).swapN n).primary = if n % 2 = 0 then 1 else 2 := by
  induction n with
  | zero => rfl
  | succ n ih =>
      rcases Nat.even_or_odd n with he | ho
      · have h2 : n % 2 = 0 := Nat.even_iff.mp he
        have h2s : (n + 1) % 2 = 1 := by omega
        simp only [DoubleBufferedFbo.swapN, DoubleBufferedFbo.swap, ih, h2, h2s]
        simp
      · have h2 : n % 2 = 1 := Nat.odd_iff.mp ho
        have h2s : (n + 1) % 2 = 0 := by omega
        simp only [DoubleBufferedFbo.swapN, DoubleBufferedFbo.swap, ih, h2, h2s]
        simp

/-- C1: for every DoubleBufferedFbo constructed with textures t1 and t2 and
every finite sequence of swap() calls, getPrimaryTexture() returns t1 after an
even number of swaps and t2 after an odd number (getSecondaryTexture()
returning the other), and the primary indicator is always either 1 or 2. -/
theorem c1_pingpong_invariant {Texture : Type} (t1 t2 : Texture) (w h : ℚ) (n : Nat) :
    (((DoubleBufferedFbo.make t1 t2 w h).swapN n).getPrimaryTexture
        = if n % 2 = 0 then t1 else t2)
    ∧ (((DoubleBufferedFbo.make t1 t2 w h).swapN n).getSecondaryTexture
        = if n % 2 = 0 then t2 else t1)
    ∧ (((DoubleBufferedFbo.make t1 t2 w h).swapN n).primary = 1
        ∨ ((DoubleBufferedFbo.make t1 t2 w h).swapN n).primary = 2) := by
  have hp := DoubleBufferedFbo.swapN_primary t1 t2 w h n
  have ht := DoubleBufferedFbo.swapN_textures t1 t2 w h n
  by_cases h : n % 2 = 0 <;>
    simp [DoubleBufferedFbo.getPrimaryTexture, DoubleBufferedFbo.getSecondaryTexture, hp, h,
      ht.1, ht.2]

/-- C2: for every DoubleBufferedFbo whose isCleared flag is false, clearFbo
clears both underlying framebuffers exactly once each, in the order
clear (primary), swap, clear (other side), swap; the primary/secondary
orientation is unchanged (getPrimaryFbo afterwards is the framebuffer that was
primary before), both textures end up all-zero, and isCleared becomes true. -/
theorem c2_clearFbo_complete {Texture : Type} (f : DoubleBufferedFbo Texture) (gl : GLState)
    (hc : f.isCleared = false) (hp : f.primary = 1 ∨ f.primary = 2) :
    ((f.clearFbo gl).1.primary = f.primary)
    ∧ ((f.clearFbo gl).1.getPrimaryFbo = f.getPrimaryFbo)
    ∧ ((f.clearFbo gl).2.clearTrace
        = gl.clearTrace ++ (if f.primary = 1 then [1, 2] else [2, 1]))
    ∧ ((f.clearFbo gl).2.clearTrace.count 1 = gl.clearTrace.count 1 + 1)
    ∧ ((f.clearFbo gl).2.clearTrace.count 2 = gl.clearTrace.count 2 + 1)
    ∧ (∀ p ∈ (f.clearFbo gl).2.tex1, p = 0)
    ∧ (∀ p ∈ (f.clearFbo gl).2.tex2, p = 0)
    ∧ ((f.clearFbo gl).1.isCleared = true) := by
  obtain ⟨w, h, t1, t2, c1, c2, pr, ic⟩ := f
  simp only [DoubleBufferedFbo.isCleared] at hc
  simp only [DoubleBufferedFbo.primary] at hp
  subst hc
  rcases hp with hp | hp <;> subst hp <;> cases c1 <;> cases c2 <;>
    refine ⟨?_, ?_, ?_, ?_, ?_, ?_, ?_, ?_⟩ <;>
      simp [DoubleBufferedFbo.clearFbo, DoubleBufferedFbo.bindFbo,
        DoubleBufferedFbo.ensureFboComplete, DoubleBufferedFbo.swap,
        DoubleBufferedFbo.getPrimaryFbo, glClear, List.count_append]

/-- Witness for C2 at a concrete double-buffered fbo and GL state. -/
theorem c2_clearFbo_complete_witness :
    (DoubleBufferedFbo.clearFbo
        { width := 2, height := 1, texture1 := 7, texture2 := 9,
          fbo1Complete := false, fbo2Complete := false, primary := 1, isCleared := false }
        { tex1 := [3, 4], tex2 := [5], boundFbo := none, clearTrace := [] }).2.clearTrace
      = [1, 2]
    ∧ (DoubleBufferedFbo.clearFbo
        { width := 2, height := 1, texture1 := 7, texture2 := 9,
          fbo1Complete := false, fbo2Complete := false, primary := 1, isCleared := false }
        { tex1 := [3, 4], tex2 := [5], boundFbo := none, clearTrace := [] }).1.primary = 1 := by
  have h := c2_clearFbo_complete
    { width := 2, height := 1, texture1 := 7, texture2 := 9,
      fbo1Complete := false, fbo2Complete := false, primary := 1, isCleared := false }
    { tex1 := [3, 4], tex2 := [5], boundFbo := none, clearTrace := [] }
    (by decide) (Or.inl (by decide))
  refine ⟨?_, ?_⟩
  · have := h.2.2.1
    simpa using this
  · have := h.1
    simpa using this

/-- C3 counterexample: a DragRecognizer configured for two clicks, in state
Possible after a single matching click, whose translation magnitude strictly
exceeds interpretDistance (5 > 3), does not transition to Began on a move
event, because its click counter (1) differs from the configured
numberOfClicks (2); the claim that exceeding the threshold alone forces the
Began transition is therefore false. -/
theorem c3_threshold_counterexample :
    (DragRecognizer.shouldInterpret
      { state := GestureState.possible, button := 0, interpretDistance := 3,
        numberOfClicks := 2, clickCounter := 1, maxClickInterval := 400,
        translationX := 5, translationY := 0, mouseButtonMask := 1,
        timeout := true } = false)
    ∧ ((5 : ℚ) * 5 + 0 * 0 > 3 * 3)
    ∧ (DragRecognizer.mouseMove
      { state := GestureState.possible, button := 0, interpretDistance := 3,
        numberOfClicks := 2, clickCounter := 1, maxClickInterval := 400,
        translationX := 5, translationY := 0, mouseButtonMask := 1,
        timeout := true }).state = GestureState.possible := by
  refine ⟨?_, by norm_num, ?_⟩
  · simp [DragRecognizer.shouldInterpret]
  · simp [DragRecognizer.mouseMove, DragRecognizer.shouldInterpret]

/-- C3 amended: in state Possible a move event never sets the state to Began
while the squared translation magnitude is at most the squared
interpretDistance (in particular at exact equality the state remains
Possible); once the magnitude strictly exceeds the threshold the move event
transitions to Began provided additionally the click (resp. tap) counter
equals the configured count and shouldRecognize holds (exactly the configured
mouse button down for Drag; a touch count within the configured bounds for
Pan). -/
theorem c3_threshold_amended :
    (∀ r : DragRecognizer, r.state = GestureState.possible →
      0 ≤ r.interpretDistance →
      ((r.translationX * r.translationX + r.translationY * r.translationY
          ≤ r.interpretDistance * r.interpretDistance →
        (r.mouseMove).state = GestureState.possible)
      ∧ (r.translationX * r.translationX + r.translationY * r.translationY
          > r.interpretDistance * r.interpretDistance →
        r.numberOfClicks = r.clickCounter →
        2 ^ r.button = r.mouseButtonMask →
        (r.mouseMove).state = GestureState.began)))
    ∧ (∀ p : PanRecognizer, p.state = GestureState.possible →
      0 ≤ p.interpretDistance →
      ((p.translationX * p.translationX + p.translationY * p.translationY
          ≤ p.interpretDistance * p.interpretDistance →
        (p.touchMove).state = GestureState.possible)
      ∧ (p.translationX * p.translationX + p.translationY * p.translationY
          > p.interpretDistance * p.interpretDistance →
        p.numberOfTaps = p.tapCounter →
        p.touchCount ≠ 0 →
        p.touchCount ≥ p.minNumberOfTouches →
        p.touchCount ≤ p.maxNumberOfTouches →
        (p.touchMove).state = GestureState.began))) := by
  constructor
  · intro r hstate _
    constructor
    · intro hle
      have hsi : r.shouldInterpret = false := by
        simp [DragRecognizer.shouldInterpret, not_lt.mpr hle]
      simp [DragRecognizer.mouseMove, hstate, hsi]
    · intro hgt hclicks hbtn
      have hsi : r.shouldInterpret = true := by
        simp [DragRecognizer.shouldInterpret, hgt, hclicks]
      have hsr : r.shouldRecognize = true := by
        simp [DragRecognizer.shouldRecognize, hbtn]
      simp [DragRecognizer.mouseMove, hstate, hsi, hsr]
  · intro p hstate _
    constructor
    · intro hle
      have hsi : p.shouldInterpret = false := by
        simp [PanRecognizer.shouldInterpret, not_lt.mpr hle]
      simp [PanRecognizer.touchMove, hstate, hsi]
    · intro hgt htaps h0 hmin hmax
      have hsi : p.shouldInterpret = true := by
        simp [PanRecognizer.shouldInterpret, hgt, htaps]
      have hsr : p.shouldRecognize = true := by
        simp [PanRecognizer.shouldRecognize, h0, hmin, hmax]
      simp [PanRecognizer.touchMove, hstate, hsi, hsr]

/-- Witness for the amended C3 at a concrete drag and a concrete pan. -/
theorem c3_threshold_amended_witness :
    (DragRecognizer.mouseMove
      { state := GestureState.possible, button := 0, interpretDistance := 3,
        numberOfClicks := 1, clickCounter := 1, maxClickInterval := 400,
        translationX := 4, translationY := 0, mouseButtonMask := 1,
        timeout := false }).state = GestureState.began
    ∧ (PanRecognizer.touchMove
      { state := GestureState.possible, minNumberOfTouches := 1,
        maxNumberOfTouches := 10, interpretDistance := 20, numberOfTaps := 1,
        tapCounter := 1, maxTapInterval := 300, translationX := 21,
        translationY := 0, touchCount := 1,
        timeout := false }).state = GestureState.began := by
  constructor
  · exact (c3_threshold_amended.1 _ rfl (by norm_num)).2 (by norm_num) rfl (by norm_num)
  · exact (c3_threshold_amended.2 _ rfl (by norm_num)).2 (by norm_num) rfl
      (by norm_num) (by norm_num) (by norm_num)

theorem DragRecognizer.step_preserves_failed (r : DragRecognizer) (ev : RecEvent)
    (h : r.state = GestureState.failed) : (r.step ev).state = GestureState.failed := by
  by_cases ht : r.timeout = true <;> cases ev <;>
    simp [DragRecognizer.step, DragRecognizer.mouseDown, DragRecognizer.mouseMove,
      DragRecognizer.mouseUp, DragRecognizer.touchStart, DragRecognizer.timerFire, h, ht]

/-- C4: a touch event delivered to the mouse-exclusive DragRecognizer in
Possible sets its state to Failed, and the state stays Failed across every
further sequence of input events or timer firings (only a reset leaves
Failed); symmetrically a mouse-down delivered to the touch-exclusive
PanRecognizer in Possible immediately sets its state to Failed. -/
theorem c4_modality_exclusivity :
    (∀ r : DragRecognizer, r.state = GestureState.possible →
      (r.touchStart).state = GestureState.failed)
    ∧ (∀ (r : DragRecognizer) (evs : List RecEvent),
        r.state = GestureState.failed → (r.steps evs).state = GestureState.failed)
    ∧ (∀ p : PanRecognizer, p.state = GestureState.possible →
        (p.mouseDown).state = GestureState.failed) := by
  refine ⟨?_, ?_, ?_⟩
  · intro r h
    simp [DragRecognizer.touchStart, h]
  · intro r evs h
    induction evs generalizing r with
    | nil => exact h
    | cons ev rest ih =>
        exact ih (r.step ev) (DragRecognizer.step_preserves_failed r ev h)
  · intro p h
    simp [PanRecognizer.mouseDown, h]

/-- Witness for C4: concrete recognizers in Possible, and a concrete event
sequence after the failure. -/
theorem c4_modality_exclusivity_witness :
    (DragRecognizer.touchStart
      { state := GestureState.possible, button := 0, interpretDistance := 3,
        numberOfClicks := 1, clickCounter := 0, maxClickInterval := 400,
        translationX := 0, translationY := 0, mouseButtonMask := 0,
        timeout := false }).state = GestureState.failed
    ∧ (DragRecognizer.steps
      { state := GestureState.failed, button := 0, interpretDistance := 3,
        numberOfClicks := 1, clickCounter := 0, maxClickInterval := 400,
        translationX := 0, translationY := 0, mouseButtonMask := 0,
        timeout := true }
      [RecEvent.mouseDown 0, RecEvent.mouseMove, RecEvent.timerFire,
        RecEvent.touchStart]).state = GestureState.failed
    ∧ (PanRecognizer.mouseDown
      { state := GestureState.possible, minNumberOfTouches := 1,
        maxNumberOfTouches := 10, interpretDistance := 20, numberOfTaps := 1,
        tapCounter := 0, maxTapInterval := 300, translationX := 0,
        translationY := 0, touchCount := 0,
        timeout := false }).state = GestureState.failed := by
  refine ⟨?_, ?_, ?_⟩
  · exact c4_modality_exclusivity.1 _ rfl
  · exact c4_modality_exclusivity.2.1 _ _ rfl
  · exact c4_modality_exclusivity.2.2 _ rfl

/-- C5 counterexample: with numberOfClicks = 2, a first matching mouse-down
arms the delayed-failure timer, and a subsequent touch event moves the
recognizer to the terminal state Failed without cancelling the timer, so a
pending timer exists while the recognizer is in a terminal state. -/
theorem c5_timer_counterexample :
    (DragRecognizer.steps
      { state := GestureState.possible, button := 0, interpretDistance := 3,
        numberOfClicks := 2, clickCounter := 0, maxClickInterval := 400,
        translationX := 0, translationY := 0, mouseButtonMask := 1,
        timeout := false }
      [RecEvent.mouseDown 0, RecEvent.touchStart]).state = GestureState.failed
    ∧ (DragRecognizer.steps
      { state := GestureState.possible, button := 0, interpretDistance := 3,
        numberOfClicks := 2, clickCounter := 0, maxClickInterval := 400,
        translationX := 0, translationY := 0, mouseButtonMask := 1,
        timeout := false }
      [RecEvent.mouseDown 0, RecEvent.touchStart]).timeout = true := by
  decide

/-- C5 amended: the delayed-failure timer is cancelled on every reset (which
also returns the recognizer to Possible), but reaching a terminal state does
not cancel a pending timer; instead, a timer that fires while the recognizer
is in any state other than Possible or Began leaves that state unchanged. -/
theorem c5_timer_amended :
    (∀ r : DragRecognizer,
      (r.reset).timeout = false ∧ (r.reset).state = GestureState.possible)
    ∧ (∀ p : PanRecognizer,
      (p.reset).timeout = false ∧ (p.reset).state = GestureState.possible)
    ∧ (∀ r : DragRecognizer, r.state ≠ GestureState.possible →
        r.state ≠ GestureState.began → (r.timerFire).state = r.state)
    ∧ (∀ p : PanRecognizer, p.state ≠ GestureState.possible →
        p.state ≠ GestureState.began → (p.timerFire).state = p.state) := by
  refine ⟨?_, ?_, ?_, ?_⟩
  · intro r
    exact ⟨rfl, rfl⟩
  · intro p
    exact ⟨rfl, rfl⟩
  · intro r h1 h2
    by_cases ht : r.timeout = true <;> simp [DragRecognizer.timerFire, h1, h2, ht]
  · intro p h1 h2
    by_cases ht : p.timeout = true <;> simp [PanRecognizer.timerFire, h1, h2, ht]

/-- Witness for the amended C5 at concrete recognizers. -/
theorem c5_timer_amended_witness :
    (DragRecognizer.reset
      { state := GestureState.failed, button := 0, interpretDistance := 3,
        numberOfClicks := 2, clickCounter := 1, maxClickInterval := 400,
        translationX := 0, translationY := 0, mouseButtonMask := 1,
        timeout := true }).timeout = false
    ∧ (DragRecognizer.timerFire
      { state := GestureState.failed, button := 0, interpretDistance := 3,
        numberOfClicks := 2, clickCounter := 1, maxClickInterval := 400,
        translationX := 0, translationY := 0, mouseButtonMask := 1,
        timeout := true }).state = GestureState.failed
    ∧ (PanRecognizer.timerFire
      { state := GestureState.ended, minNumberOfTouches := 1,
        maxNumberOfTouches := 10, interpretDistance := 20, numberOfTaps := 2,
        tapCounter := 1, maxTapInterval := 300, translationX := 0,
        translationY := 0, touchCount := 0,
        timeout := true }).state = GestureState.ended := by
  refine ⟨?_, ?_, ?_⟩
  · exact (c5_timer_amended.1 _).1
  · exact c5_timer_amended.2.2.1 _ (by decide) (by decide)
  · exact c5_timer_amended.2.2.2 _ (by decide) (by decide)

/-- C6: in the secondary-drag (arc-ball) and rotation handlers, the
detectNorthUp latch arms on a change event only when the resulting absolute
heading exceeds 10 degrees; while unarmed the heading follows the gesture
delta (beginHeading plus the translation-derived delta for drags, the
incremental rotation delta for rotations) with northUpMode cleared and no
snapping; and once armed, a change event entered with absolute heading
within 10 degrees of 0 sets the heading to exactly 0 and sets northUpMode to
the keepNorthUp flag. -/
theorem c6_north_up_latch (s : NavState) (tx ty w h rotation : ℚ) :
    ((s.detectNorthUp = false →
      (handleSecondaryDrag s GestureState.changed tx ty w h true).detectNorthUp = true →
      |(handleSecondaryDrag s GestureState.changed tx ty w h true).heading| > 10)
    ∧ (s.detectNorthUp = false →
      (handleSecondaryDrag s GestureState.changed tx ty w h true).heading
          = s.beginHeading + 180 * tx / w
        ∧ (handleSecondaryDrag s GestureState.changed tx ty w h true).northUpMode = false))
    ∧ ((s.detectNorthUp = false →
      (handleRotation s GestureState.changed rotation).detectNorthUp = true →
      |(handleRotation s GestureState.changed rotation).heading| > 10)
    ∧ (s.detectNorthUp = false →
      (handleRotation s GestureState.changed rotation).heading
          = s.heading - (rotation - s.lastRotation)
        ∧ (handleRotation s GestureState.changed rotation).northUpMode = false))
    ∧ (s.detectNorthUp = true → |s.heading| < 10 →
      (handleSecondaryDrag s GestureState.changed tx ty w h true).heading = 0
        ∧ (handleSecondaryDrag s GestureState.changed tx ty w h true).northUpMode
            = s.keepNorthUp)
    ∧ (s.detectNorthUp = true → |s.heading| < 10 →
      (handleRotation s GestureState.changed rotation).heading = 0
        ∧ (handleRotation s GestureState.changed rotation).northUpMode = s.keepNorthUp) := by
  refine ⟨⟨?_, ?_⟩, ⟨?_, ?_⟩, ?_, ?_⟩
  · intro hd harm
    by_cases hgt : |s.beginHeading + 180 * tx / w| > 10 <;>
      simp_all [handleSecondaryDrag, hd, hgt]
  · intro hd
    by_cases hgt : 10 < |s.beginHeading + 180 * tx / w| <;>
      simp [handleSecondaryDrag, hd, hgt]
  · intro hd harm
    by_cases hgt : |s.heading - (rotation - s.lastRotation)| > 10 <;>
      simp_all [handleRotation, hd, hgt]
  · intro hd
    by_cases hgt : 10 < |s.heading - (rotation - s.lastRotation)| <;>
      simp [handleRotation, hd, hgt]
  · intro hd hlt
    simp [handleSecondaryDrag, hd, hlt]
  · intro hd hlt
    simp [handleRotation, hd, hlt]

/-- Witness for C6: a concrete state armed beyond 10 degrees snaps to 0, and
a concrete unarmed state follows the delta. -/
theorem c6_north_up_latch_witness :
    ((handleSecondaryDrag
      { heading := 4, tilt := 0, beginHeading := 15, beginTilt := 0, lastRotation := 0,
        northUpMode := false, detectNorthUp := true, keepNorthUp := true }
      GestureState.changed 10 0 360 180 true).heading = 0
    ∧ (handleSecondaryDrag
      { heading := 4, tilt := 0, beginHeading := 15, beginTilt := 0, lastRotation := 0,
        northUpMode := false, detectNorthUp := true, keepNorthUp := true }
      GestureState.changed 10 0 360 180 true).northUpMode = true)
    ∧ ((handleRotation
      { heading := 15, tilt := 0, beginHeading := 0, beginTilt := 0, lastRotation := 0,
        northUpMode := false, detectNorthUp := false, keepNorthUp := true }
      GestureState.changed 3).heading = 12
    ∧ (handleRotation
      { heading := 15, tilt := 0, beginHeading := 0, beginTilt := 0, lastRotation := 0,
        northUpMode := false, detectNorthUp := false, keepNorthUp := true }
      GestureState.changed 3).northUpMode = false) := by
  constructor
  · have h := (c6_north_up_latch
      { heading := 4, tilt := 0, beginHeading := 15, beginTilt := 0, lastRotation := 0,
        northUpMode := false, detectNorthUp := true, keepNorthUp := true }
      10 0 360 180 0).2.2.1 rfl (by norm_num)
    exact ⟨h.1, h.2⟩
  · have h := (c6_north_up_latch
      { heading := 15, tilt := 0, beginHeading := 0, beginTilt := 0, lastRotation := 0,
        northUpMode := false, detectNorthUp := false, keepNorthUp := true }
      0 0 360 180 3).2.1.2 rfl
    refine ⟨?_, h.2⟩
    rw [h.1]
    norm_num

/-- C7 counterexample: starting a second fling animation while a frame of the
first is still scheduled leaves both frames pending (the old continuation is
not cancelled before the new tick is scheduled), so two fling animations are
simultaneously scheduled. -/
theorem c7_fling_counterexample :
    (startFlingAnimation
      (startFlingAnimation { flingAnimationId := -1 } { nextId := 0, pending := [] }).1
      (startFlingAnimation { flingAnimationId := -1 } { nextId := 0, pending := [] }).2).2.pending
      = [0, 1]
    ∧ (startFlingAnimation { flingAnimationId := -1 } { nextId := 0, pending := [] }).1.flingAnimationId
      ∈ (startFlingAnimation
          (startFlingAnimation { flingAnimationId := -1 } { nextId := 0, pending := [] }).1
          (startFlingAnimation { flingAnimationId := -1 } { nextId := 0, pending := [] }).2).2.pending := by
  decide

/-- C7 amended: every pointer-down event cancels the in-flight fling
animation (the stored id becomes -1 and the previously stored frame is no
longer pending); starting a new fling animation, however, does not cancel a
previously scheduled animation-frame continuation: it merely overwrites
flingAnimationId with the freshly scheduled frame id, leaving any old pending
frame scheduled. -/
theorem c7_fling_amended :
    (∀ (c : FlingController) (s : FrameScheduler),
      (pointerDownFling c s).1.flingAnimationId = -1
      ∧ (c.flingAnimationId ≠ -1 →
          c.flingAnimationId ∉ (pointerDownFling c s).2.pending))
    ∧ (∀ (c : FlingController) (s : FrameScheduler),
      (startFlingAnimation c s).2.pending = s.pending ++ [(s.nextId : ℤ)]
      ∧ (startFlingAnimation c s).1.flingAnimationId = (s.nextId : ℤ)) := by
  constructor
  · intro c s
    constructor
    · by_cases h : c.flingAnimationId ≠ -1 <;>
        simp_all [pointerDownFling, cancelFlingAnimation]
    · intro h
      simp [pointerDownFling, cancelFlingAnimation, cancelAnimationFrame, h,
        List.mem_filter]
  · intro c s
    exact ⟨rfl, rfl⟩

/-- Witness for the amended C7 at a concrete controller and scheduler. -/
theorem c7_fling_amended_witness :
    (pointerDownFling { flingAnimationId := 5 }
      { nextId := 6, pending := [5] }).1.flingAnimationId = -1
    ∧ (5 : ℤ) ∉ (pointerDownFling { flingAnimationId := 5 }
      { nextId := 6, pending := [5] }).2.pending
    ∧ (startFlingAnimation { flingAnimationId := -1 }
      { nextId := 6, pending := [5] }).2.pending = [5, 6] := by
  refine ⟨?_, ?_, ?_⟩
  · exact (c7_fling_amended.1 { flingAnimationId := 5 } { nextId := 6, pending := [5] }).1
  · exact (c7_fling_amended.1 { flingAnimationId := 5 }
      { nextId := 6, pending := [5] }).2 (by decide)
  · have h := (c7_fling_amended.2 { flingAnimationId := -1 }
      { nextId := 6, pending := [5] }).1
    simpa using h

theorem floor_add_half_bounds (t : ℚ) :
    t - 1 / 2 < (⌊t + 1 / 2⌋ : ℚ) ∧ (⌊t + 1 / 2⌋ : ℚ) ≤ t + 1 / 2 := by
  constructor
  · have h := Int.lt_floor_add_one (t + 1 / 2)
    linarith
  · exact Int.floor_le (t + 1 / 2)

theorem encode_decode_axis (x : ℚ) (h0 : 0 ≤ x) (h1 : x < 1) :
    |roundChannel (fract (1 * x) - fract (255 * x) * (1 / 255)) * 1
      + roundChannel (fract (255 * x) - fract (255 * x) * 0) * (1 / 255) - x| ≤ 1 / 255 := by
  have hfx : fract (1 * x) = x := by
    have hfl : ⌊x⌋ = 0 := Int.floor_eq_zero_iff.mpr ⟨h0, h1⟩
    simp [fract, hfl]
  set n : ℤ := ⌊255 * x⌋ with hn
  set g : ℚ := fract (255 * x) with hg
  have hg_eq : g = 255 * x - (n : ℚ) := rfl
  have hr255 : (fract (1 * x) - fract (255 * x) * (1 / 255)) * 255 = (n : ℚ) := by
    rw [hfx, ← hg, hg_eq]
    ring
  have hrc_r : roundChannel (fract (1 * x) - fract (255 * x) * (1 / 255)) = (n : ℚ) / 255 := by
    unfold roundChannel
    rw [hr255]
    have hhalf : ⌊(n : ℚ) + 1 / 2⌋ = n := by
      rw [Int.floor_int_add]
      norm_num
    rw [hhalf]
  have hgz : fract (255 * x) - fract (255 * x) * 0 = g := by
    rw [← hg]
    ring
  set m : ℤ := ⌊g * 255 + 1 / 2⌋ with hm
  have hrc_g : roundChannel (fract (255 * x) - fract (255 * x) * 0) = (m : ℚ) / 255 := by
    unfold roundChannel
    rw [hgz, ← hm]
  have hmb := floor_add_half_bounds (g * 255)
  rw [← hm] at hmb
  rw [hrc_r, hrc_g]
  have hx_eq : x = (n : ℚ) / 255 + g / 255 := by
    rw [hg_eq]
    ring
  rw [abs_le]
  constructor <;> [skip; skip] <;> rw [hx_eq] <;> nlinarith [hmb.1, hmb.2]

/-- C8: for every particle position (x, y) with both coordinates in [0, 1),
encoding with encodePositionToRGBA and decoding with decodePositionFromRGBA
(whose channel rounding models the 8-bit quantization of each stored channel)
reproduces each coordinate within 1/255 absolute error. -/
theorem c8_position_roundtrip (x y : ℚ) (hx0 : 0 ≤ x) (hx1 : x < 1)
    (hy0 : 0 ≤ y) (hy1 : y < 1) :
    |(decodePositionFromRGBA (encodePositionToRGBA (x, y))).1 - x| ≤ 1 / 255
    ∧ |(decodePositionFromRGBA (encodePositionToRGBA (x, y))).2 - y| ≤ 1 / 255 := by
  constructor
  · exact encode_decode_axis x hx0 hx1
  · exact encode_decode_axis y hy0 hy1

/-- Witness for C8 at the concrete position (1/3, 3/5). -/
theorem c8_position_roundtrip_witness :
    |(decodePositionFromRGBA (encodePositionToRGBA (1 / 3, 3 / 5))).1 - 1 / 3| ≤ 1 / 255
    ∧ |(decodePositionFromRGBA (encodePositionToRGBA (1 / 3, 3 / 5))).2 - 3 / 5| ≤ 1 / 255 := by
  exact c8_position_roundtrip (1 / 3) (3 / 5) (by norm_num) (by norm_num)
    (by norm_num) (by norm_num)

theorem ceilSqrt_sq_ge (n : Nat) : n ≤ ceilSqrt n * ceilSqrt n := by
  unfold ceilSqrt
  split
  · omega
  · have h := Nat.lt_succ_sqrt n
    rw [Nat.succ_eq_add_one] at h
    omega

theorem ceilSqrt_mul_self (r : Nat) : ceilSqrt (r * r) = r := by
  unfold ceilSqrt
  rw [Nat.sqrt_eq]
  simp

theorem ceilSqrt_sq_eq_iff (n : Nat) :
    ceilSqrt n * ceilSqrt n = n ↔ ∃ m, m * m = n := by
  constructor
  · intro h
    exact ⟨ceilSqrt n, h⟩
  · intro h
    have hs := (Nat.exists_mul_self n).mp h
    unfold ceilSqrt
    simp [hs]

/-- C10: setting numParticles to a positive n stores the perfect square
r * r with r = ceil(sqrt(n)) (so the stored count is at least n, with
equality exactly when n is a perfect square), stores r as the sim-texture
resolution, marks _requiresFboClear, and the recomputation at the start of
createSimFbo re-establishes exactly the same squaring (it leaves the state
unchanged). -/
theorem c10_numParticles_square (s : GriddedDataLayerState) (n : Nat) (hn : 0 < n) :
    ((setNumParticles s n).numParticles = ceilSqrt n * ceilSqrt n)
    ∧ (n ≤ (setNumParticles s n).numParticles)
    ∧ ((setNumParticles s n).numParticles = n ↔ ∃ m, m * m = n)
    ∧ ((setNumParticles s n).simTextureResolution = ceilSqrt n)
    ∧ ((setNumParticles s n).requiresFboClear = true)
    ∧ (createSimFboResize (setNumParticles s n) = setNumParticles s n) := by
  refine ⟨rfl, ceilSqrt_sq_ge n, ceilSqrt_sq_eq_iff n, rfl, rfl, ?_⟩
  simp [createSimFboResize, setNumParticles, ceilSqrt_mul_self]

theorem ceilSqrt_five : ceilSqrt 5 = 3 := by
  have h : Nat.sqrt 5 = 2 := (Nat.eq_sqrt.mpr (by omega)).symm
  simp [ceilSqrt, h]

/-- Witness for C10 at n = 5 (not a perfect square; ceil(sqrt 5) = 3). -/
theorem c10_numParticles_square_witness :
    (setNumParticles
      { numParticles := 16384, simTextureResolution := 128, requiresFboClear := false }
      5).numParticles = 9
    ∧ (setNumParticles
      { numParticles := 16384, simTextureResolution := 128, requiresFboClear := false }
      5).simTextureResolution = 3
    ∧ createSimFboResize (setNumParticles
      { numParticles := 16384, simTextureResolution := 128, requiresFboClear := false } 5)
      = setNumParticles
        { numParticles := 16384, simTextureResolution := 128, requiresFboClear := false } 5 := by
  have h := c10_numParticles_square
    { numParticles := 16384, simTextureResolution := 128, requiresFboClear := false } 5
    (by decide)
  refine ⟨?_, ?_, h.2.2.2.2.2⟩
  · rw [h.1, ceilSqrt_five]
  · rw [h.2.2.2.1, ceilSqrt_five]

theorem quad_foldl (u v : List ℚ) (l : List Nat) (a b c d : ℚ) :
    l.foldl
      (fun m i =>
        (minMaxStepMin u m.1 i, minMaxStepMax u m.2.1 i,
         minMaxStepMin v m.2.2.1 i, minMaxStepMax v m.2.2.2 i))
      (a, b, c, d)
    = (l.foldl (minMaxStepMin u) a, l.foldl (minMaxStepMax u) b,
       l.foldl (minMaxStepMin v) c, l.foldl (minMaxStepMax v) d) := by
  induction l generalizing a b c d with
  | nil => rfl
  | cons x xs ih =>
      simp only [List.foldl_cons]
      exact ih _ _ _ _

theorem minMaxStepMin_eq_min (l : List ℚ) (m : ℚ) (i : Nat) :
    minMaxStepMin l m i = min m (l.getD i 0) := by
  unfold minMaxStepMin
  rcases le_or_lt m (l.getD i 0) with h | h
  · rw [if_neg (not_lt.mpr h)]
    exact (min_eq_left h).symm
  · rw [if_pos h]
    exact (min_eq_right h.le).symm

theorem minMaxStepMax_eq_max (l : List ℚ) (m : ℚ) (i : Nat) :
    minMaxStepMax l m i = max m (l.getD i 0) := by
  unfold minMaxStepMax
  rcases le_or_lt (l.getD i 0) m with h | h
  · rw [if_neg (not_lt.mpr h)]
    exact (max_eq_left h).symm
  · rw [if_pos h]
    exact (max_eq_right h.le).symm

theorem foldl_min_le_init (l : List ℚ) (idxs : List Nat) (a : ℚ) :
    idxs.foldl (minMaxStepMin l) a ≤ a := by
  induction idxs generalizing a with
  | nil => exact le_refl a
  | cons i rest ih =>
      simp only [List.foldl_cons, minMaxStepMin_eq_min]
      exact le_trans (ih _) (min_le_left _ _)

theorem foldl_min_le_elem (l : List ℚ) (idxs : List Nat) (a : ℚ) (i : Nat)
    (hi : i ∈ idxs) : idxs.foldl (minMaxStepMin l) a ≤ l.getD i 0 := by
  induction idxs generalizing a with
  | nil => cases hi
  | cons j rest ih =>
      simp only [List.foldl_cons, minMaxStepMin_eq_min]
      rcases List.mem_cons.mp hi with h | h
      · subst h
        exact le_trans (foldl_min_le_init l rest _) (min_le_right _ _)
      · exact ih _ h

theorem foldl_min_mem (l : List ℚ) (idxs : List Nat) (a : ℚ) :
    idxs.foldl (minMaxStepMin l) a = a
    ∨ ∃ i ∈ idxs, idxs.foldl (minMaxStepMin l) a = l.getD i 0 := by
  induction idxs generalizing a with
  | nil => exact Or.inl rfl
  | cons j rest ih =>
      simp only [List.foldl_cons, minMaxStepMin_eq_min]
      rcases ih (min a (l.getD j 0)) with h | ⟨i, hi, h⟩
      · rw [h]
        rcases min_cases a (l.getD j 0) with ⟨he, _⟩ | ⟨he, _⟩
        · exact Or.inl he
        · exact Or.inr ⟨j, List.mem_cons_self j rest, he⟩
      · exact Or.inr ⟨i, List.mem_cons_of_mem j hi, h⟩

theorem foldl_max_ge_init (l : List ℚ) (idxs : List Nat) (a : ℚ) :
    a ≤ idxs.foldl (minMaxStepMax l) a := by
  induction idxs generalizing a with
  | nil => exact le_refl a
  | cons i rest ih =>
      simp only [List.foldl_cons, minMaxStepMax_eq_max]
      exact le_trans (le_max_left _ _) (ih _)

theorem foldl_max_ge_elem (l : List ℚ) (idxs : List Nat) (a : ℚ) (i : Nat)
    (hi : i ∈ idxs) : l.getD i 0 ≤ idxs.foldl (minMaxStepMax l) a := by
  induction idxs generalizing a with
  | nil => cases hi
  | cons j rest ih =>
      simp only [List.foldl_cons, minMaxStepMax_eq_max]
      rcases List.mem_cons.mp hi with h | h
      · subst h
        exact le_trans (le_max_right _ _) (foldl_max_ge_init l rest _)
      · exact ih _ h

theorem foldl_max_mem (l : List ℚ) (idxs : List Nat) (a : ℚ) :
    idxs.foldl (minMaxStepMax l) a = a
    ∨ ∃ i ∈ idxs, idxs.foldl (minMaxStepMax l) a = l.getD i 0 := by
  induction idxs generalizing a with
  | nil => exact Or.inl rfl
  | cons j rest ih =>
      simp only [List.foldl_cons, minMaxStepMax_eq_max]
      rcases ih (max a (l.getD j 0)) with h | ⟨i, hi, h⟩
      · rw [h]
        rcases max_cases a (l.getD j 0) with ⟨he, _⟩ | ⟨he, _⟩
        · exact Or.inl he
        · exact Or.inr ⟨j, List.mem_cons_self j rest, he⟩
      · exact Or.inr ⟨i, List.mem_cons_of_mem j hi, h⟩

theorem buildRows_length (f : Nat → List Nat) (L : Nat)
    (hf : ∀ m, (f m).length = L) (n : Nat) : (buildRows f n).length = n * L := by
  induction n with
  | zero => simp [buildRows]
  | succ n ih =>
      simp only [buildRows, List.length_append, ih, hf, Nat.succ_mul]

theorem buildRows_getD (f : Nat → List Nat) (L : Nat)
    (hf : ∀ m, (f m).length = L) (d : Nat) :
    ∀ n i j, i < n → j < L → (buildRows f n).getD (i * L + j) d = (f i).getD j d := by
  intro n
  induction n with
  | zero =>
      intro i j hi _
      omega
  | succ n ih =>
      intro i j hi hj
      rcases Nat.lt_or_ge i n with h | h
      · have hlt : i * L + j < (buildRows f n).length := by
          rw [buildRows_length f L hf n]
          have h1 : i * L + j < (i + 1) * L := by
            rw [Nat.add_mul, Nat.one_mul]
            omega
          have h2 : (i + 1) * L ≤ n * L := Nat.mul_le_mul_right L h
          omega
        rw [buildRows, List.getD_append _ _ _ _ hlt]
        exact ih i j h hj
      · have hi_eq : i = n := by omega
        subst hi_eq
        have hge : (buildRows f i).length ≤ i * L + j := by
          rw [buildRows_length f L hf i]
          omega
        rw [buildRows, List.getD_append_right _ _ _ _ hge]
        rw [buildRows_length f L hf i]
        congr 1
        omega

theorem createGridData_width (u v : GridComponent) :
    (createGridData (u, v)).width = (⌊u.nx⌋).toNat := rfl

theorem createGridData_height (u v : GridComponent) :
    (createGridData (u, v)).height = (⌊u.ny⌋).toNat := rfl

theorem createGridData_uMin (u v : GridComponent) :
    (createGridData (u, v)).uMin = (gridMinMax u.data v.data).1 := rfl

theorem createGridData_uMax (u v : GridComponent) :
    (createGridData (u, v)).uMax = (gridMinMax u.data v.data).2.1 := rfl

theorem createGridData_vMin (u v : GridComponent) :
    (createGridData (u, v)).vMin = (gridMinMax u.data v.data).2.2.1 := rfl

theorem createGridData_vMax (u v : GridComponent) :
    (createGridData (u, v)).vMax = (gridMinMax u.data v.data).2.2.2 := rfl

theorem createGridData_data (u v : GridComponent) :
    (createGridData (u, v)).data
    = buildRows
        (fun y => buildRows
          (fun x => gridCell u.data v.data
            (gridMinMax u.data v.data).1 (gridMinMax u.data v.data).2.1
            (gridMinMax u.data v.data).2.2.1 (gridMinMax u.data v.data).2.2.2
            (⌊u.nx⌋).toNat ((⌊u.nx⌋).toNat / 2) y x)
          (⌊u.nx⌋).toNat)
        (⌊u.ny⌋).toNat := rfl

theorem foldl_min_spec (l : List ℚ) (n : Nat) (hl : l.length = n) (hn : 0 < n) :
    ((List.range' 1 (n - 1)).foldl (minMaxStepMin l) (l.getD 0 0) ∈ l)
    ∧ ∀ a ∈ l, (List.range' 1 (n - 1)).foldl (minMaxStepMin l) (l.getD 0 0) ≤ a := by
  constructor
  · rcases foldl_min_mem l (List.range' 1 (n - 1)) (l.getD 0 0) with h | ⟨i, hi, h⟩
    · rw [h, List.getD_eq_getElem l 0 (by omega)]
      exact List.getElem_mem (by omega)
    · have hi2 := List.mem_range'_1.mp hi
      rw [h, List.getD_eq_getElem l 0 (by omega)]
      exact List.getElem_mem (by omega)
  · intro a ha
    obtain ⟨j, hj, hja⟩ := List.mem_iff_getElem.mp ha
    rcases Nat.eq_zero_or_pos j with hj0 | hjpos
    · subst hj0
      rw [← hja, ← List.getD_eq_getElem l 0 (by omega)]
      exact foldl_min_le_init l (List.range' 1 (n - 1)) (l.getD 0 0)
    · have hmem : j ∈ List.range' 1 (n - 1) := List.mem_range'_1.mpr ⟨hjpos, by omega⟩
      rw [← hja, ← List.getD_eq_getElem l 0 (by omega)]
      exact foldl_min_le_elem l (List.range' 1 (n - 1)) (l.getD 0 0) j hmem

theorem foldl_max_spec (l : List ℚ) (n : Nat) (hl : l.length = n) (hn : 0 < n) :
    ((List.range' 1 (n - 1)).foldl (minMaxStepMax l) (l.getD 0 0) ∈ l)
    ∧ ∀ a ∈ l, a ≤ (List.range' 1 (n - 1)).foldl (minMaxStepMax l) (l.getD 0 0) := by
  constructor
  · rcases foldl_max_mem l (List.range' 1 (n - 1)) (l.getD 0 0) with h | ⟨i, hi, h⟩
    · rw [h, List.getD_eq_getElem l 0 (by omega)]
      exact List.getElem_mem (by omega)
    · have hi2 := List.mem_range'_1.mp hi
      rw [h, List.getD_eq_getElem l 0 (by omega)]
      exact List.getElem_mem (by omega)
  · intro a ha
    obtain ⟨j, hj, hja⟩ := List.mem_iff_getElem.mp ha
    rcases Nat.eq_zero_or_pos j with hj0 | hjpos
    · subst hj0
      rw [← hja, ← List.getD_eq_getElem l 0 (by omega)]
      exact foldl_max_ge_init l (List.range' 1 (n - 1)) (l.getD 0 0)
    · have hmem : j ∈ List.range' 1 (n - 1) := List.mem_range'_1.mpr ⟨hjpos, by omega⟩
      rw [← hja, ← List.getD_eq_getElem l 0 (by omega)]
      exact foldl_max_ge_elem l (List.range' 1 (n - 1)) (l.getD 0 0) j hmem

theorem gridMinMax_spec (u v : List ℚ) (hu : 0 < u.length) (hv : v.length = u.length) :
    ((gridMinMax u v).1 ∈ u ∧ ∀ a ∈ u, (gridMinMax u v).1 ≤ a)
    ∧ ((gridMinMax u v).2.1 ∈ u ∧ ∀ a ∈ u, a ≤ (gridMinMax u v).2.1)
    ∧ ((gridMinMax u v).2.2.1 ∈ v ∧ ∀ a ∈ v, (gridMinMax u v).2.2.1 ≤ a)
    ∧ ((gridMinMax u v).2.2.2 ∈ v ∧ ∀ a ∈ v, a ≤ (gridMinMax u v).2.2.2) := by
  have hq := quad_foldl u v (List.range' 1 (u.length - 1))
    (u.getD 0 0) (u.getD 0 0) (v.getD 0 0) (v.getD 0 0)
  unfold gridMinMax
  rw [hq]
  exact ⟨foldl_min_spec u u.length rfl hu, foldl_max_spec u u.length rfl hu,
    foldl_min_spec v u.length hv hu, foldl_max_spec v u.length hv hu⟩

theorem gridCell_length (u v : List ℚ) (a b c d : ℚ) (w hw y x : Nat) :
    (gridCell u v a b c d w hw y x).length = 4 := rfl

/-- C9: createGridData, for a two-element (u, v) grib-data pair whose data
arrays have length width * height (with width = floor(nx), height =
floor(ny)), computes the global minimum and maximum of each component over
the whole data array and returns a width x height x 4 byte buffer in which
the cell at (x, y) is taken from source index
y * width + ((x + floor(width / 2)) % width) and holds
R = floor(255 * (u - uMin) / (uMax - uMin)),
G = floor(255 * (v - vMin) / (vMax - vMin)), B = 0, A = 255. -/
theorem c9_createGridData (u v : GridComponent) (g : GridData)
    (hg : g = createGridData (u, v))
    (hu : 0 < u.data.length)
    (hv : v.data.length = u.data.length)
    (hw : u.data.length = g.width * g.height) :
    (g.width = (⌊u.nx⌋).toNat)
    ∧ (g.height = (⌊u.ny⌋).toNat)
    ∧ (g.data.length = g.width * g.height * 4)
    ∧ (g.uMin ∈ u.data ∧ ∀ a ∈ u.data, g.uMin ≤ a)
    ∧ (g.uMax ∈ u.data ∧ ∀ a ∈ u.data, a ≤ g.uMax)
    ∧ (g.vMin ∈ v.data ∧ ∀ a ∈ v.data, g.vMin ≤ a)
    ∧ (g.vMax ∈ v.data ∧ ∀ a ∈ v.data, a ≤ g.vMax)
    ∧ ∀ y x, y < g.height → x < g.width →
        ((g.data.getD ((y * g.width + x) * 4) 0 : ℤ)
            = ⌊255 * (u.data.getD (y * g.width + (x + g.width / 2) % g.width) 0 - g.uMin)
              / (g.uMax - g.uMin)⌋)
        ∧ ((g.data.getD ((y * g.width + x) * 4 + 1) 0 : ℤ)
            = ⌊255 * (v.data.getD (y * g.width + (x + g.width / 2) % g.width) 0 - g.vMin)
              / (g.vMax - g.vMin)⌋)
        ∧ (g.data.getD ((y * g.width + x) * 4 + 2) 0 = 0)
        ∧ (g.data.getD ((y * g.width + x) * 4 + 3) 0 = 255) := by
  subst hg
  have hmm := gridMinMax_spec u.data v.data hu hv
  simp only [createGridData_width, createGridData_height, createGridData_data,
    createGridData_uMin, createGridData_uMax, createGridData_vMin,
    createGridData_vMax] at hw ⊢
  have hrowLen : ∀ y,
      (buildRows
        (fun x => gridCell u.data v.data
          (gridMinMax u.data v.data).1 (gridMinMax u.data v.data).2.1
          (gridMinMax u.data v.data).2.2.1 (gridMinMax u.data v.data).2.2.2
          (⌊u.nx⌋).toNat ((⌊u.nx⌋).toNat / 2) y x)
        (⌊u.nx⌋).toNat).length = (⌊u.nx⌋).toNat * 4 := by
    intro y
    exact buildRows_length _ 4
      (fun m => gridCell_length u.data v.data
        (gridMinMax u.data v.data).1 (gridMinMax u.data v.data).2.1
        (gridMinMax u.data v.data).2.2.1 (gridMinMax u.data v.data).2.2.2
        (⌊u.nx⌋).toNat ((⌊u.nx⌋).toNat / 2) y m)
      (⌊u.nx⌋).toNat
  refine ⟨trivial, trivial, ?_, hmm.1, hmm.2.1, hmm.2.2.1, hmm.2.2.2, ?_⟩
  · rw [buildRows_length _ ((⌊u.nx⌋).toNat * 4) hrowLen (⌊u.ny⌋).toNat]
    ring
  · intro y x hy hx
    have hWpos : 0 < (⌊u.nx⌋).toNat := by omega
    have hkmod : (x + (⌊u.nx⌋).toNat / 2) % (⌊u.nx⌋).toNat < (⌊u.nx⌋).toNat :=
      Nat.mod_lt _ hWpos
    have hklt : y * (⌊u.nx⌋).toNat + (x + (⌊u.nx⌋).toNat / 2) % (⌊u.nx⌋).toNat
        < u.data.length := by
      rw [hw]
      have h1 : y * (⌊u.nx⌋).toNat + (x + (⌊u.nx⌋).toNat / 2) % (⌊u.nx⌋).toNat
          < (y + 1) * (⌊u.nx⌋).toNat := by
        rw [Nat.add_mul, Nat.one_mul]
        omega
      have h2 : (y + 1) * (⌊u.nx⌋).toNat ≤ (⌊u.ny⌋).toNat * (⌊u.nx⌋).toNat :=
        Nat.mul_le_mul_right _ hy
      calc y * (⌊u.nx⌋).toNat + (x + (⌊u.nx⌋).toNat / 2) % (⌊u.nx⌋).toNat
          < (y + 1) * (⌊u.nx⌋).toNat := h1
        _ ≤ (⌊u.ny⌋).toNat * (⌊u.nx⌋).toNat := h2
        _ = (⌊u.nx⌋).toNat * (⌊u.ny⌋).toNat := Nat.mul_comm _ _
    have hkltv : y * (⌊u.nx⌋).toNat + (x + (⌊u.nx⌋).toNat / 2) % (⌊u.nx⌋).toNat
        < v.data.length := by omega
    have humem : u.data.getD
        (y * (⌊u.nx⌋).toNat + (x + (⌊u.nx⌋).toNat / 2) % (⌊u.nx⌋).toNat) 0 ∈ u.data := by
      rw [List.getD_eq_getElem u.data 0 hklt]
      exact List.getElem_mem hklt
    have hvmem : v.data.getD
        (y * (⌊u.nx⌋).toNat + (x + (⌊u.nx⌋).toNat / 2) % (⌊u.nx⌋).toNat) 0 ∈ v.data := by
      rw [List.getD_eq_getElem v.data 0 hkltv]
      exact List.getElem_mem hkltv
    have huq : 0 ≤ 255 * (u.data.getD
        (y * (⌊u.nx⌋).toNat + (x + (⌊u.nx⌋).toNat / 2) % (⌊u.nx⌋).toNat) 0
        - (gridMinMax u.data v.data).1)
        / ((gridMinMax u.data v.data).2.1 - (gridMinMax u.data v.data).1) := by
      have hlo := hmm.1.2 _ humem
      have hden : (gridMinMax u.data v.data).1 ≤ (gridMinMax u.data v.data).2.1 :=
        hmm.1.2 _ hmm.2.1.1
      rcases eq_or_lt_of_le hden with hd0 | hdpos
      · rw [← hd0, sub_self, div_zero]
      · apply div_nonneg
        · have : (0 : ℚ) ≤ 255 := by norm_num
          apply mul_nonneg this
          linarith
        · linarith
    have hvq : 0 ≤ 255 * (v.data.getD
        (y * (⌊u.nx⌋).toNat + (x + (⌊u.nx⌋).toNat / 2) % (⌊u.nx⌋).toNat) 0
        - (gridMinMax u.data v.data).2.2.1)
        / ((gridMinMax u.data v.data).2.2.2 - (gridMinMax u.data v.data).2.2.1) := by
      have hlo := hmm.2.2.1.2 _ hvmem
      have hden : (gridMinMax u.data v.data).2.2.1 ≤ (gridMinMax u.data v.data).2.2.2 :=
        hmm.2.2.1.2 _ hmm.2.2.2.1
      rcases eq_or_lt_of_le hden with hd0 | hdpos
      · rw [← hd0, sub_self, div_zero]
      · apply div_nonneg
        · have : (0 : ℚ) ≤ 255 := by norm_num
          apply mul_nonneg this
          linarith
        · linarith
    have hidx0 : (y * (⌊u.nx⌋).toNat + x) * 4
        = y * ((⌊u.nx⌋).toNat * 4) + (x * 4 + 0) := by ring
    have hidx1 : (y * (⌊u.nx⌋).toNat + x) * 4 + 1
        = y * ((⌊u.nx⌋).toNat * 4) + (x * 4 + 1) := by ring
    have hidx2 : (y * (⌊u.nx⌋).toNat + x) * 4 + 2
        = y * ((⌊u.nx⌋).toNat * 4) + (x * 4 + 2) := by ring
    have hidx3 : (y * (⌊u.nx⌋).toNat + x) * 4 + 3
        = y * ((⌊u.nx⌋).toNat * 4) + (x * 4 + 3) := by ring
    refine ⟨?_, ?_, ?_, ?_⟩
    · rw [hidx0, buildRows_getD _ ((⌊u.nx⌋).toNat * 4) hrowLen 0 (⌊u.ny⌋).toNat y (x * 4 + 0)
        hy (by omega), buildRows_getD _ 4 (fun m => gridCell_length u.data v.data
        (gridMinMax u.data v.data).1 (gridMinMax u.data v.data).2.1
        (gridMinMax u.data v.data).2.2.1 (gridMinMax u.data v.data).2.2.2
        (⌊u.nx⌋).toNat ((⌊u.nx⌋).toNat / 2) y m) 0 (⌊u.nx⌋).toNat x 0 hx (by omega)]
      simp only [gridCell, List.getD_cons_zero]
      exact Int.toNat_of_nonneg (Int.floor_nonneg.mpr huq)
    · rw [hidx1, buildRows_getD _ ((⌊u.nx⌋).toNat * 4) hrowLen 0 (⌊u.ny⌋).toNat y (x * 4 + 1)
        hy (by omega), buildRows_getD _ 4 (fun m => gridCell_length u.data v.data
        (gridMinMax u.data v.data).1 (gridMinMax u.data v.data).2.1
        (gridMinMax u.data v.data).2.2.1 (gridMinMax u.data v.data).2.2.2
        (⌊u.nx⌋).toNat ((⌊u.nx⌋).toNat / 2) y m) 0 (⌊u.nx⌋).toNat x 1 hx (by omega)]
      simp only [gridCell, List.getD_cons_zero, List.getD_cons_succ]
      exact Int.toNat_of_nonneg (Int.floor_nonneg.mpr hvq)
    · rw [hidx2, buildRows_getD _ ((⌊u.nx⌋).toNat * 4) hrowLen 0 (⌊u.ny⌋).toNat y (x * 4 + 2)
        hy (by omega), buildRows_getD _ 4 (fun m => gridCell_length u.data v.data
        (gridMinMax u.data v.data).1 (gridMinMax u.data v.data).2.1
        (gridMinMax u.data v.data).2.2.1 (gridMinMax u.data v.data).2.2.2
        (⌊u.nx⌋).toNat ((⌊u.nx⌋).toNat / 2) y m) 0 (⌊u.nx⌋).toNat x 2 hx (by omega)]
      simp only [gridCell, List.getD_cons_zero, List.getD_cons_succ]
    · rw [hidx3, buildRows_getD _ ((⌊u.nx⌋).toNat * 4) hrowLen 0 (⌊u.ny⌋).toNat y (x * 4 + 3)
        hy (by omega), buildRows_getD _ 4 (fun m => gridCell_length u.data v.data
        (gridMinMax u.data v.data).1 (gridMinMax u.data v.data).2.1
        (gridMinMax u.data v.data).2.2.1 (gridMinMax u.data v.data).2.2.2
        (⌊u.nx⌋).toNat ((⌊u.nx⌋).toNat / 2) y m) 0 (⌊u.nx⌋).toNat x 3 hx (by omega)]
      simp only [gridCell, List.getD_cons_zero, List.getD_cons_succ]

theorem floorTwo_toNat : ((⌊(2 : ℚ)⌋).toNat) = 2 := by
  have h : ⌊(2 : ℚ)⌋ = 2 := by norm_num
  rw [h]
  rfl

theorem floorOne_toNat : ((⌊(1 : ℚ)⌋).toNat) = 1 := by
  have h : ⌊(1 : ℚ)⌋ = 1 := by norm_num
  rw [h]
  rfl

/-- Witness for C9 at a concrete 2 x 1 grid with u data [1, 3] and
v data [2, 5]. -/
theorem c9_createGridData_witness :
    ((createGridData
        ({ nx := 2, ny := 1, data := [1, 3] },
         { nx := 2, ny := 1, data := [2, 5] })).data.getD 3 0 = 255)
    ∧ ((createGridData
        ({ nx := 2, ny := 1, data := [1, 3] },
         { nx := 2, ny := 1, data := [2, 5] })).uMin ∈ ([1, 3] : List ℚ)) := by
  have h := c9_createGridData
    { nx := 2, ny := 1, data := [1, 3] } { nx := 2, ny := 1, data := [2, 5] }
    (createGridData
      ({ nx := 2, ny := 1, data := [1, 3] }, { nx := 2, ny := 1, data := [2, 5] }))
    rfl (by decide) (by decide)
    (by
      rw [createGridData_width, createGridData_height, floorTwo_toNat, floorOne_toNat]
      decide)
  have h0H : (0 : Nat) < (createGridData
      ({ nx := 2, ny := 1, data := [1, 3] },
       { nx := 2, ny := 1, data := [2, 5] })).height := by
    rw [createGridData_height, floorOne_toNat]
    decide
  have h0W : (0 : Nat) < (createGridData
      ({ nx := 2, ny := 1, data := [1, 3] },
       { nx := 2, ny := 1, data := [2, 5] })).width := by
    rw [createGridData_width, floorTwo_toNat]
    decide
  constructor
  · have ha := (h.2.2.2.2.2.2.2 0 0 h0H h0W).2.2.2
    simpa using ha
  · exact h.2.2.2.1.1
